import Mathlib

/-
Verification development for `troupon/deals/baseviews.py`.

The file shallowly embeds the view classes of `baseviews.py` — their
class-level defaults, the date-filter step, the Django paginator they rely
on, and the page/description selection logic — as executable Lean
definitions, and proves the behavioural properties stated about them.

Conventions of the embedding:
* dates are integers (day ordinals): `datetime.date.today()` is a parameter
  `today : Int`, and `today - timedelta(days = d)` is `today - d`;
* a queryset is a `List` of records, and `.filter(field__gt = x)` is
  `List.filter`;
* Python exceptions are the error side of `Except`;
* a value read from `request.GET` is an `Option String` (`none` = absent).
-/

set_option autoImplicit false

namespace Troupon

/-! ## Python-level primitives -/

/-- The exceptions that can arise in the embedded fragment. -/
inductive PyExc where
  | http404 (msg : String)
  | nameError (name : String)
  | doesNotExist
  | multipleObjectsReturned
  | pageNotAnInteger
  | emptyPage
  deriving DecidableEq, Repr

/-- Equality of embedded results is decidable, so theorems can be
evaluated on closed inputs. -/
instance instDecEqExcept {ε α : Type} [DecidableEq ε] [DecidableEq α] :
    DecidableEq (Except ε α)
  | .error e, .error f =>
    if h : e = f then .isTrue (congrArg Except.error h)
    else .isFalse (fun hc => h (by injection hc))
  | .error _, .ok _ => .isFalse (fun hc => Except.noConfusion hc)
  | .ok _, .error _ => .isFalse (fun hc => Except.noConfusion hc)
  | .ok x, .ok y =>
    if h : x = y then .isTrue (congrArg Except.ok h)
    else .isFalse (fun hc => h (by injection hc))

/-- Whitespace stripped by Python's `int(str)` conversion. -/
def isPySpace (c : Char) : Bool :=
  c = ' ' ∨ c = '\t' ∨ c = '\n' ∨ c = '\r' ∨ c = '\x0b' ∨ c = '\x0c'

/-- Value of a nonempty all-digit character list, `none` otherwise. -/
def digitsVal (cs : List Char) : Option Nat :=
  if cs ≠ [] ∧ cs.all (·.isDigit) then
    some (cs.foldl (fun a c => a * 10 + (c.toNat - 48)) 0)
  else none

/-- Python `int(str)` on a character list: strip surrounding whitespace,
allow one optional sign, then require a nonempty run of digits. -/
def pyIntChars (cs : List Char) : Option Int :=
  let t := ((cs.dropWhile isPySpace).reverse.dropWhile isPySpace).reverse
  match t with
  | '-' :: rest => (digitsVal rest).map (fun n => -(n : Int))
  | '+' :: rest => (digitsVal rest).map (fun n => (n : Int))
  | rest => (digitsVal rest).map (fun n => (n : Int))

/-- Python `int(str)`: `some n` when the string parses, `none` when the
conversion raises `ValueError`. -/
def pyInt (s : String) : Option Int :=
  pyIntChars s.toList

/-- An HTTP request: its query string (`request.GET`) as an association
list of parameter name / value pairs. -/
structure Request where
  GET : List (String × String)
  deriving DecidableEq, Repr

/-- `request.GET.get(k)`: the value of parameter `k`, `none` if absent.
A present-but-empty parameter is `some ""`. -/
def getParam (r : Request) (k : String) : Option String :=
  (r.GET.find? (fun p => p.1 == k)).map (·.2)

/-- A page-number argument as it reaches `Paginator.page`: either the raw
query-string value, or the integer class default. -/
inductive PyVal where
  | str (s : String)
  | int (n : Int)
  deriving DecidableEq, Repr

/-- Python `int(x)` on a page argument: parses a string, passes an int. -/
def pyIntOf : PyVal → Option Int
  | .str s => pyInt s
  | .int n => some n

/-! ## The Django paginator

Embedding of `django.core.paginator.Paginator` as used by `baseviews.py`:
construction `Paginator(object_list, per_page, orphans)` (so
`allow_empty_first_page` keeps its default `True`), `count`, `num_pages`,
`validate_number` and `page`. -/

structure Paginator (α : Type) where
  object_list : List α
  per_page : Nat
  orphans : Nat
  allow_empty_first_page : Bool
  deriving DecidableEq, Repr

namespace Paginator

variable {α : Type}

/-- `Paginator.count`: total number of objects. -/
def count (p : Paginator α) : Nat :=
  p.object_list.length

/-- `Paginator.num_pages`: `0` for an empty list when an empty first page
is not allowed, otherwise `ceil(max(1, count - orphans) / per_page)`. -/
def num_pages (p : Paginator α) : Nat :=
  if p.count = 0 ∧ p.allow_empty_first_page = false then 0
  else (max 1 (p.count - p.orphans) + p.per_page - 1) / p.per_page

/-- `Paginator.validate_number`: `int()` failure raises `PageNotAnInteger`;
a number below `1` or above `num_pages` raises `EmptyPage`, except that
page `1` of an empty paginator is allowed when `allow_empty_first_page`. -/
def validate_number (p : Paginator α) (v : PyVal) : Except PyExc Int :=
  match pyIntOf v with
  | none => .error .pageNotAnInteger
  | some n =>
    if n < 1 then .error .emptyPage
    else if (p.num_pages : Int) < n then
      if n = 1 ∧ p.allow_empty_first_page then .ok n else .error .emptyPage
    else .ok n

/-- The slice of objects shown on (1-based) page `n`:
`object_list[bottom:top]` where `bottom = (n-1)*per_page`,
`top = bottom + per_page`, and a trailing run of at most `orphans` items is
absorbed by extending `top` to `count`. -/
def pageSlice (p : Paginator α) (n : Nat) : List α :=
  let bottom := (n - 1) * p.per_page
  let top0 := bottom + p.per_page
  let top := if p.count ≤ top0 + p.orphans then p.count else top0
  (p.object_list.drop bottom).take (top - bottom)

end Paginator

/-- A delivered page: its objects and its validated 1-based number. -/
structure Page (α : Type) where
  object_list : List α
  number : Int
  deriving DecidableEq, Repr

namespace Paginator

variable {α : Type}

/-- `Paginator.page(v)`: validate the requested number, then slice. -/
def page (p : Paginator α) (v : PyVal) : Except PyExc (Page α) :=
  match p.validate_number v with
  | .error e => .error e
  | .ok n => .ok ⟨p.pageSlice n.toNat, n⟩

end Paginator

/-- The `try/except` around `paginator.page` shared by
`DealListBaseView.render_deal_list` and `CollectionsBaseView.get`:
`PageNotAnInteger` falls back to page 1, `EmptyPage` falls back to the last
page; any exception raised by the fallback itself propagates. -/
def pageFallback {α : Type} (p : Paginator α) (v : PyVal) : Except PyExc (Page α) :=
  match p.page v with
  | .error .pageNotAnInteger => p.page (.int 1)
  | .error .emptyPage => p.page (.int (p.num_pages : Int))
  | other => other

/-! ## `DealListBaseView` -/

/-- A `Deal` record as the views see it: its `date_last_modified` (a day
ordinal) and the remaining model fields as name/value attributes. -/
structure Dealrec where
  date_last_modified : Int
  attrs : List (String × Int)
  deriving DecidableEq, Repr

/-- Modelled from the spec: `EPOCH_CHOICES`, imported from `deals.models`
(not part of the provided sources), is a list of `(delta_days, label)`
time-window choices; its value here is the spec's worked example. -/
def EPOCH_CHOICES : List (Int × String) :=
  [(-1, "All time"), (7, "Last week"), (30, "Last month")]

/-- The attributes of `DealListBaseView` (its class-level defaults, as
shadowed per request/instance). The `date_filter` dict is split into its
two keys `choices` and `default`. -/
structure DealListState where
  deals : List Dealrec
  title : String
  description : String
  zero_items_message : String
  num_page_items : Nat
  min_orphan_items : Nat
  show_page_num : Int
  pagination_base_url : String
  dfChoices : List (Int × String)
  dfDefault : Int
  deriving DecidableEq, Repr

/-- The class-level defaults of `DealListBaseView`; `allDeals` stands for
the queryset `Deal.objects.all()`. -/
def dealListDefaults (allDeals : List Dealrec) : DealListState :=
  { deals := allDeals
    title := "Deals"
    description := ""
    zero_items_message := "Sorry, no deals found!"
    num_page_items := 15
    min_orphan_items := 2
    show_page_num := 1
    pagination_base_url := ""
    dfChoices := EPOCH_CHOICES
    dfDefault := -1 }

/-- `DealListBaseView.filter_deals_from_params`: read `dtf`; return
unchanged if it is falsy, fails `int()`, or is out of the index range of
the choices; otherwise filter `deals` to those modified strictly after
`today - delta` days (skipped when the delta is the `-1` sentinel) and
record the chosen delta as `date_filter['default']`. -/
def filter_deals_from_params (today : Int) (s : DealListState) (r : Request) :
    DealListState :=
  match getParam r "dtf" with
  | none => s
  | some p =>
    if p = "" then s
    else
      match pyInt p with
      | none => s
      | some i =>
        if i < 0 ∨ (s.dfChoices.length : Int) ≤ i then s
        else
          let delta := ((s.dfChoices.get? i.toNat).getD (0, "")).1
          let s1 :=
            if delta ≠ -1 then
              { s with deals :=
                  s.deals.filter (fun d => decide (today - delta < d.date_last_modified)) }
            else s
          { s1 with dfDefault := delta }

/-- The paginator `render_deal_list` builds: the (date-filtered) deals,
`num_page_items` per page, `min_orphan_items` orphans, and Django's
default `allow_empty_first_page=True`. -/
def dealPaginator (today : Int) (s : DealListState) (r : Request) : Paginator Dealrec :=
  let s' := filter_deals_from_params today s r
  { object_list := s'.deals
    per_page := s'.num_page_items
    orphans := s'.min_orphan_items
    allow_empty_first_page := true }

/-- Resolution of the requested page number shared by both listing views:
`request.GET.get('pg')`, replaced by the configured default when falsy
(absent or the empty string). -/
def resolvePageArg (showDefault : Int) (r : Request) : PyVal :=
  match getParam r "pg" with
  | none => .int showDefault
  | some p => if p = "" then .int showDefault else .str p

/-- The `listing` dictionary `render_deal_list` passes to the deal-list
snippet template (the rendered string is a pure function of it). -/
structure Listing where
  deals_page : Page Dealrec
  df_choices : List (Int × String)
  df_default : Int
  title : String
  description : String
  pagination_base_url : String
  deriving DecidableEq, Repr

/-- `DealListBaseView.render_deal_list` (after the keyword-override loop,
which is modelled separately): apply the date filter, paginate with the
page/fallback rules, choose the description by the paginator's total
count, and assemble the listing context. Returns the updated view state
and the listing; an uncaught pagination exception is the error side. -/
def render_deal_list (today : Int) (s0 : DealListState) (r : Request) :
    Except PyExc (DealListState × Listing) :=
  let s := filter_deals_from_params today s0 r
  let P := dealPaginator today s0 r
  match pageFallback P (resolvePageArg s.show_page_num r) with
  | .error e => .error e
  | .ok dp =>
    .ok (s,
      { deals_page := dp
        df_choices := s.dfChoices
        df_default := s.dfDefault
        title := s.title
        description := if P.count ≠ 0 then s.description else s.zero_items_message
        pagination_base_url := s.pagination_base_url })

/-- The page delivered by `render_deal_list` (`none` on an uncaught
exception). -/
def deliveredDealPage (today : Int) (s : DealListState) (r : Request) :
    Option (Page Dealrec) :=
  match render_deal_list today s r with
  | .ok (_, l) => some l.deals_page
  | .error _ => none

/-- The description placed in the listing context by `render_deal_list`
(`none` on an uncaught exception). -/
def deliveredDealDescription (today : Int) (s : DealListState) (r : Request) :
    Option String :=
  match render_deal_list today s r with
  | .ok (_, l) => some l.description
  | .error _ => none

/-! ## `CollectionsBaseView` -/

/-- The attributes of `CollectionsBaseView` relevant to its `get` method;
`α` is the element type of the configured queryset. -/
structure CollectionsState (α : Type) where
  queryset : List α
  zero_items_message : String
  num_page_items : Nat
  min_orphan_items : Nat
  show_page_num : Int
  title : String
  description : String
  pagination_base_url : String
  deriving DecidableEq, Repr

/-- The paginator `CollectionsBaseView.get` builds over `self.queryset`. -/
def collPaginator {α : Type} (s : CollectionsState α) : Paginator α :=
  { object_list := s.queryset
    per_page := s.num_page_items
    orphans := s.min_orphan_items
    allow_empty_first_page := true }

/-- The template context `CollectionsBaseView.get` renders (the static
`search_options` block is a constant and is omitted). -/
structure CollectionsContext (α : Type) where
  collections_page : Page α
  title : String
  description : String
  pagination_base_url : String
  page : Bool
  deriving DecidableEq, Repr

/-- `CollectionsBaseView.get`: paginate `self.queryset` with the same
page/fallback rules as `render_deal_list`, choose the description by the
paginator's total count, and render the configured template with the
assembled context. `r` stands for `self.request`. -/
def collections_get {α : Type} (s : CollectionsState α) (r : Request) :
    Except PyExc (CollectionsContext α) :=
  let P := collPaginator s
  match pageFallback P (resolvePageArg s.show_page_num r) with
  | .error e => .error e
  | .ok cp =>
    .ok
      { collections_page := cp
        title := s.title
        description := if P.count ≠ 0 then s.description else s.zero_items_message
        pagination_base_url := s.pagination_base_url
        page := true }

/-- The page delivered by `CollectionsBaseView.get` (`none` on an
uncaught exception). -/
def deliveredCollPage {α : Type} (s : CollectionsState α) (r : Request) :
    Option (Page α) :=
  match collections_get s r with
  | .ok c => some c.collections_page
  | .error _ => none

/-- The description placed in the context by `CollectionsBaseView.get`
(`none` on an uncaught exception). -/
def deliveredCollDescription {α : Type} (s : CollectionsState α) (r : Request) :
    Option String :=
  match collections_get s r with
  | .ok c => some c.description
  | .error _ => none

/-! ## The keyword-override loop of `render_deal_list`

Python attribute assignment is untyped, so the override loop (lines 39-44
of `baseviews.py`) is modelled on the view's attribute namespace: an
association list from attribute names to values. `setattr` on a plain
view instance never raises, so the surrounding `try/except` is inert and
the loop is a total function. -/

/-- An attribute value as stored on the view by `setattr`. -/
inductive AttrVal where
  | vInt (n : Int)
  | vStr (s : String)
  | vDeals (l : List Dealrec)
  | vDateFilter (choices : List (Int × String)) (dflt : Int)
  deriving DecidableEq, Repr

/-- An attribute namespace: the view's effective attributes (class-level
defaults together with any instance attributes shadowing or extending
them). -/
abbrev ViewNS : Type := List (String × AttrVal)

/-- The effective attribute namespace given by the class-level defaults of
`DealListBaseView` (lines 24-32 of `baseviews.py`). -/
def dealListClassNS (allDeals : List Dealrec) : ViewNS :=
  [("deals", .vDeals allDeals),
   ("title", .vStr "Deals"),
   ("description", .vStr ""),
   ("zero_items_message", .vStr "Sorry, no deals found!"),
   ("num_page_items", .vInt 15),
   ("min_orphan_items", .vInt 2),
   ("show_page_num", .vInt 1),
   ("pagination_base_url", .vStr ""),
   ("date_filter", .vDateFilter EPOCH_CHOICES (-1))]

/-- Python `setattr(self, k, v)`: overwrite the effective value of `k`,
or create a new attribute when `k` is not yet bound. -/
def setattrPy : List (String × AttrVal) → String → AttrVal → List (String × AttrVal)
  | [], k, v => [(k, v)]
  | p :: rest, k, v => if p.1 = k then (k, v) :: rest else p :: setattrPy rest k v

/-- Python `getattr(self, k)` as an `Option`. -/
def getattrPy (ns : List (String × AttrVal)) (k : String) : Option AttrVal :=
  (ns.find? (fun p => p.1 == k)).map (·.2)

/-- The override loop of `render_deal_list`:
`for arg_name in kwargs: setattr(self, arg_name, kwargs.get(arg_name))`
(each assignment wrapped in an inert `try/except`). -/
def applyOverrides (ns : List (String × AttrVal)) (kwargs : List (String × AttrVal)) :
    List (String × AttrVal) :=
  kwargs.foldl (fun acc kv => setattrPy acc kv.1 kv.2) ns

/-- The value the override loop leaves for key `k`: the last value listed
for `k` in the keyword arguments, if any. -/
def lastVal : List (String × AttrVal) → String → Option AttrVal
  | [], _ => none
  | kv :: rest, k =>
    match lastVal rest k with
    | some v => some v
    | none => if kv.1 = k then some kv.2 else none

/-! ## `DealCollectionItemsListBaseView`

The subclass resolves a single model instance by slug, replaces the deal
queryset by a keyword filter, sets a title and description, and renders.
Its `get` catches `self.model.DoesNotExist` and executes
`raise Http404(self.not_found)`; whether that statement produces an
`Http404` or a `NameError` depends on whether the name `Http404` is bound
in the module, so the module's top-level names are part of the model. -/

/-- The names bound at module level in `baseviews.py`: the imports of
lines 1-8 and the three class statements. -/
def moduleNames : List String :=
  ["datetime",
   "render", "View", "RequestContext", "loader", "Engine",
   "Paginator", "EmptyPage", "PageNotAnInteger",
   "Deal", "STATE_CHOICES", "EPOCH_CHOICES",
   "DealListBaseView", "CollectionsBaseView", "DealCollectionItemsListBaseView"]

/-- Evaluation of the statement `raise Http404(self.not_found)`: if the
name `Http404` is bound it raises `Http404(msg)`; an unbound name makes
the statement itself raise `NameError`. -/
def raiseHttp404stmt (msg : String) : PyExc :=
  if "Http404" ∈ moduleNames then .http404 msg else .nameError "Http404"

/-- An instance of the configured `model`, carrying its `slug` field. -/
structure ModelInst where
  slug : String
  deriving DecidableEq, Repr

/-- The attributes of `DealCollectionItemsListBaseView`: the inherited
deal-list attributes plus its own. -/
structure DCState where
  base : DealListState
  queryset : Option ModelInst
  slug_name : String
  not_found : String
  rendered_deal_list : Option Listing
  deriving DecidableEq, Repr

/-- `self.model.objects.get(slug=slug)` over the model's instance table:
no match raises `DoesNotExist`, more than one raises
`MultipleObjectsReturned`. -/
def objects_get (insts : List ModelInst) (slug : String) : Except PyExc ModelInst :=
  match insts.filter (fun m => m.slug == slug) with
  | [] => .error .doesNotExist
  | [m] => .ok m
  | _ => .error .multipleObjectsReturned

/-- `DealCollectionItemsListBaseView.get_queryset(slug)`: store the looked
up instance on `self.queryset` and return it. -/
def get_queryset (insts : List ModelInst) (s : DCState) (slug : String) :
    Except PyExc (DCState × ModelInst) :=
  match objects_get insts slug with
  | .error e => .error e
  | .ok m => .ok ({ s with queryset := some m }, m)

/-- `Deal.objects.filter(**filter)` over the deal table: keep the deals
whose attributes match every keyword pair. -/
def objects_filter (allDeals : List Dealrec) (kw : List (String × Int)) : List Dealrec :=
  allDeals.filter
    (fun d => kw.all (fun p => (d.attrs.find? (fun a => a.1 == p.1)).map (·.2) == some p.2))

/-- The state after the successful-lookup body of `get`:
`self.filter_deals(**kwargs)`, `self.set_title("some title")`,
`self.set_description("some desc")`. -/
def dcilOverridden (allDeals : List Dealrec) (kw : List (String × Int)) (s : DCState) :
    DCState :=
  { s with base :=
      { s.base with
        deals := objects_filter allDeals kw
        title := "some title"
        description := "some desc" } }

/-- The rendered response of `do_render`: the page template applied to the
context built by `set_context_data` (the static `search_options` block is
a constant and is omitted). -/
structure RenderedPage where
  rendered_deal_list : Listing
  deriving DecidableEq, Repr

/-- `DealCollectionItemsListBaseView.do_render`: call the inherited
`render_deal_list` with `deals`, `title` and `description` passed as
overrides (each re-assigning the attribute's current value, a net no-op),
store the rendered listing, build the context, and return the rendered
page. -/
def do_render (today : Int) (s : DCState) (r : Request) :
    Except PyExc (DCState × RenderedPage) :=
  match render_deal_list today s.base r with
  | .error e => .error e
  | .ok (b2, lst) =>
    .ok ({ s with base := b2, rendered_deal_list := some lst },
         { rendered_deal_list := lst })

/-- The tail of `DealCollectionItemsListBaseView.get` after a successful
slug lookup: filter, set title and description, call `do_render` — and
fall off the end of the method, so the response `do_render` returned is
dropped and `None` is the result. -/
def dcilAfterLookup (today : Int) (allDeals : List Dealrec) (kw : List (String × Int))
    (s1 : DCState) (r : Request) : Except PyExc (DCState × Option RenderedPage) :=
  match do_render today (dcilOverridden allDeals kw s1) r with
  | .error e => .error e
  | .ok (s5, _page) => .ok (s5, none)

/-- `DealCollectionItemsListBaseView.get`: look up the slug; on
`DoesNotExist` execute `raise Http404(self.not_found)`; otherwise run the
successful-lookup tail. `slug` stands for
`self.kwargs.get(self.slug_name)` and `kw` for the view keyword
arguments. -/
def dcil_get (today : Int) (insts : List ModelInst) (allDeals : List Dealrec)
    (kw : List (String × Int)) (s : DCState) (r : Request) (slug : String) :
    Except PyExc (DCState × Option RenderedPage) :=
  match get_queryset insts s slug with
  | .error .doesNotExist => .error (raiseHttp404stmt s.not_found)
  | .error e => .error e
  | .ok (s1, _) => dcilAfterLookup today allDeals kw s1 r

/-! ## Concrete fixtures

Closed states used to evaluate the theorems on explicit inputs. -/

/-- Twenty deals with last-modified days `0..19` and no further fields. -/
def dealsFix : List Dealrec :=
  (List.range 20).map (fun k => ⟨(k : Int), []⟩)

/-- A deal-list view over the twenty fixture deals, at the class
defaults (15 per page, 2 orphans, default page 1). -/
def sFix : DealListState := dealListDefaults dealsFix

/-- A deal-list view over an empty backing collection. -/
def sEmptyFix : DealListState := dealListDefaults []

/-- The fixture deal-list view with its default page configured to 2. -/
def sPg2Fix : DealListState := { sFix with show_page_num := 2 }

/-- A collections view over twenty items, at the class defaults of
`CollectionsBaseView` (9 per page, 3 orphans, default page 1). -/
def csFix : CollectionsState Nat :=
  { queryset := List.range 20
    zero_items_message := "Sorry, no collection items found!"
    num_page_items := 9
    min_orphan_items := 3
    show_page_num := 1
    title := "Collection listing"
    description := "See all collection items"
    pagination_base_url := "" }

/-- The fixture collections view with an empty queryset. -/
def csEmptyFix : CollectionsState Nat := { csFix with queryset := [] }

/-- The fixture collections view with its default page configured to 2. -/
def csPg2Fix : CollectionsState Nat := { csFix with show_page_num := 2 }

/-- A collection-items view over the fixture deals. -/
def dcFix : DCState :=
  { base := dealListDefaults dealsFix
    queryset := none
    slug_name := "slug"
    not_found := "No such collection"
    rendered_deal_list := none }

/-- A model instance with slug `electronics`. -/
def mFix : ModelInst := ⟨"electronics"⟩

/-! ## Lemmas about the embedded paginator -/

theorem pyInt_empty : pyInt "" = none := rfl

theorem ne_empty_of_pyInt_some {p : String} {i : Int} (h : pyInt p = some i) :
    p ≠ "" := by
  intro he
  rw [he, pyInt_empty] at h
  exact Option.noConfusion h

namespace Paginator

variable {α : Type}

theorem one_le_num_pages (p : Paginator α) (hA : p.allow_empty_first_page = true)
    (hpp : 0 < p.per_page) : 1 ≤ p.num_pages := by
  unfold num_pages
  rw [hA]
  simp only [Bool.true_eq_false, and_false, if_false]
  rw [Nat.le_div_iff_mul_le hpp]
  have := Nat.le_max_left 1 (p.count - p.orphans)
  omega

theorem validate_number_int_ok (p : Paginator α) {n : Int} (h1 : 1 ≤ n)
    (h2 : n ≤ (p.num_pages : Int)) : p.validate_number (.int n) = .ok n := by
  have h1' : ¬ n < 1 := by omega
  have h2' : ¬ (p.num_pages : Int) < n := by omega
  simp [validate_number, pyIntOf, h1', h2']

theorem page_int_ok (p : Paginator α) {n : Int} (h1 : 1 ≤ n)
    (h2 : n ≤ (p.num_pages : Int)) :
    p.page (.int n) = .ok ⟨p.pageSlice n.toNat, n⟩ := by
  unfold page
  rw [validate_number_int_ok p h1 h2]

theorem validate_number_cases (p : Paginator α) (v : PyVal) :
    (∃ n, p.validate_number v = .ok n) ∨
      p.validate_number v = .error .pageNotAnInteger ∨
      p.validate_number v = .error .emptyPage := by
  unfold validate_number
  cases pyIntOf v with
  | none => simp
  | some n =>
    by_cases hn : n < 1
    · simp [hn]
    · by_cases hm : (p.num_pages : Int) < n
      · by_cases he : n = 1 ∧ p.allow_empty_first_page
        · simp [hn, hm, he]
        · simp [hn, hm, he]
      · simp [hn, hm]

theorem page_cases (p : Paginator α) (v : PyVal) :
    (∃ pg, p.page v = .ok pg) ∨
      p.page v = .error .pageNotAnInteger ∨
      p.page v = .error .emptyPage := by
  unfold page
  rcases p.validate_number_cases v with ⟨n, h⟩ | h | h <;> simp [h]

theorem validate_number_notAnInteger (p : Paginator α) {v : PyVal}
    (h : pyIntOf v = none) : p.validate_number v = .error .pageNotAnInteger := by
  unfold validate_number
  rw [h]

theorem validate_number_outOfRange (p : Paginator α) {v : PyVal} {n : Int}
    (h : pyIntOf v = some n) (hout : n < 1 ∨ (p.num_pages : Int) < n)
    (hA : p.allow_empty_first_page = true) (hpp : 0 < p.per_page) :
    p.validate_number v = .error .emptyPage := by
  have hnp : 1 ≤ p.num_pages := p.one_le_num_pages hA hpp
  by_cases hn : n < 1
  · simp [validate_number, h, hn]
  · have hm : (p.num_pages : Int) < n := by omega
    have hne : ¬ (n = 1 ∧ p.allow_empty_first_page = true) := by
      intro hcon
      omega
    simp [validate_number, h, hn, hm, hne]

end Paginator

theorem pageFallback_notAnInteger {α : Type} (p : Paginator α) {v : PyVal}
    (h : pyIntOf v = none) (hA : p.allow_empty_first_page = true)
    (hpp : 0 < p.per_page) :
    pageFallback p v = .ok ⟨p.pageSlice 1, 1⟩ := by
  have hnp : 1 ≤ p.num_pages := p.one_le_num_pages hA hpp
  have hv : p.page v = .error .pageNotAnInteger := by
    unfold Paginator.page
    rw [p.validate_number_notAnInteger h]
  have h1 : p.page (.int 1) = .ok ⟨p.pageSlice 1, 1⟩ := by
    have := p.page_int_ok (n := 1) le_rfl (by exact_mod_cast hnp)
    simpa using this
  unfold pageFallback
  rw [hv]
  exact h1

theorem pageFallback_outOfRange {α : Type} (p : Paginator α) {v : PyVal} {n : Int}
    (h : pyIntOf v = some n) (hout : n < 1 ∨ (p.num_pages : Int) < n)
    (hA : p.allow_empty_first_page = true) (hpp : 0 < p.per_page) :
    pageFallback p v = .ok ⟨p.pageSlice p.num_pages, (p.num_pages : Int)⟩ := by
  have hnp : 1 ≤ p.num_pages := p.one_le_num_pages hA hpp
  have hv : p.page v = .error .emptyPage := by
    unfold Paginator.page
    rw [p.validate_number_outOfRange h hout hA hpp]
  have hN : p.page (.int (p.num_pages : Int)) =
      .ok ⟨p.pageSlice p.num_pages, (p.num_pages : Int)⟩ := by
    have := p.page_int_ok (n := (p.num_pages : Int)) (by exact_mod_cast hnp) le_rfl
    simpa using this
  unfold pageFallback
  rw [hv]
  exact hN

theorem pageFallback_inRange {α : Type} (p : Paginator α) {v : PyVal} {n : Int}
    (h : pyIntOf v = some n) (h1 : 1 ≤ n) (h2 : n ≤ (p.num_pages : Int)) :
    pageFallback p v = .ok ⟨p.pageSlice n.toNat, n⟩ := by
  have hv : p.page v = .ok ⟨p.pageSlice n.toNat, n⟩ := by
    unfold Paginator.page
    have hval : p.validate_number v = .ok n := by
      have h1' : ¬ n < 1 := by omega
      have h2' : ¬ (p.num_pages : Int) < n := by omega
      simp [Paginator.validate_number, h, h1', h2']
    rw [hval]
  unfold pageFallback
  rw [hv]

theorem pageFallback_ok {α : Type} (p : Paginator α) (v : PyVal)
    (hA : p.allow_empty_first_page = true) (hpp : 0 < p.per_page) :
    ∃ pg, pageFallback p v = .ok pg := by
  have hnp : 1 ≤ p.num_pages := p.one_le_num_pages hA hpp
  have h1 : p.page (.int 1) = .ok ⟨p.pageSlice 1, 1⟩ := by
    have := p.page_int_ok (n := 1) le_rfl (by exact_mod_cast hnp)
    simpa using this
  have hN : p.page (.int (p.num_pages : Int)) =
      .ok ⟨p.pageSlice p.num_pages, (p.num_pages : Int)⟩ := by
    have := p.page_int_ok (n := (p.num_pages : Int)) (by exact_mod_cast hnp) le_rfl
    simpa using this
  rcases p.page_cases v with ⟨pg, h⟩ | h | h
  · exact ⟨pg, by unfold pageFallback; rw [h]⟩
  · exact ⟨_, by unfold pageFallback; rw [h]; exact h1⟩
  · exact ⟨_, by unfold pageFallback; rw [h]; exact hN⟩

/-! ## Lemmas about the date-filter step and the render pipeline -/

theorem filter_deals_from_params_preserves (today : Int) (s : DealListState)
    (r : Request) :
    (filter_deals_from_params today s r).title = s.title ∧
    (filter_deals_from_params today s r).description = s.description ∧
    (filter_deals_from_params today s r).zero_items_message = s.zero_items_message ∧
    (filter_deals_from_params today s r).num_page_items = s.num_page_items ∧
    (filter_deals_from_params today s r).min_orphan_items = s.min_orphan_items ∧
    (filter_deals_from_params today s r).show_page_num = s.show_page_num ∧
    (filter_deals_from_params today s r).pagination_base_url = s.pagination_base_url ∧
    (filter_deals_from_params today s r).dfChoices = s.dfChoices := by
  unfold filter_deals_from_params
  cases getParam r "dtf" with
  | none => exact ⟨rfl, rfl, rfl, rfl, rfl, rfl, rfl, rfl⟩
  | some p =>
    dsimp only []
    by_cases hp : p = ""
    · simp [hp]
    · rw [if_neg hp]
      cases pyInt p with
      | none => exact ⟨rfl, rfl, rfl, rfl, rfl, rfl, rfl, rfl⟩
      | some i =>
        dsimp only []
        by_cases hr : i < 0 ∨ (s.dfChoices.length : Int) ≤ i
        · simp [hr]
        · rw [if_neg hr]
          dsimp only []
          refine ⟨?_, ?_, ?_, ?_, ?_, ?_, ?_, ?_⟩ <;> (split <;> rfl)

theorem dealPaginator_per_page (today : Int) (s : DealListState) (r : Request) :
    (dealPaginator today s r).per_page = s.num_page_items := by
  unfold dealPaginator
  exact (filter_deals_from_params_preserves today s r).2.2.2.1

theorem dealPaginator_allow (today : Int) (s : DealListState) (r : Request) :
    (dealPaginator today s r).allow_empty_first_page = true := rfl

theorem collPaginator_allow {α : Type} (s : CollectionsState α) :
    (collPaginator s).allow_empty_first_page = true := rfl

theorem deliveredDealPage_eq (today : Int) (s : DealListState) (r : Request) :
    deliveredDealPage today s r =
      (pageFallback (dealPaginator today s r)
        (resolvePageArg s.show_page_num r)).toOption := by
  unfold deliveredDealPage render_deal_list
  dsimp only []
  rw [(filter_deals_from_params_preserves today s r).2.2.2.2.2.1]
  cases pageFallback (dealPaginator today s r) (resolvePageArg s.show_page_num r) with
  | error e => rfl
  | ok dp => rfl

theorem deliveredDealDescription_eq (today : Int) (s : DealListState) (r : Request)
    (hpp : 0 < s.num_page_items) :
    deliveredDealDescription today s r =
      some (if (dealPaginator today s r).count ≠ 0 then s.description
            else s.zero_items_message) := by
  have hok := pageFallback_ok (dealPaginator today s r)
    (resolvePageArg s.show_page_num r) (dealPaginator_allow today s r)
    (by rw [dealPaginator_per_page]; exact hpp)
  obtain ⟨pg, hpg⟩ := hok
  unfold deliveredDealDescription render_deal_list
  dsimp only []
  rw [(filter_deals_from_params_preserves today s r).2.2.2.2.2.1, hpg]
  rw [(filter_deals_from_params_preserves today s r).2.1,
    (filter_deals_from_params_preserves today s r).2.2.1]

theorem deliveredCollPage_eq {α : Type} (s : CollectionsState α) (r : Request) :
    deliveredCollPage s r =
      (pageFallback (collPaginator s) (resolvePageArg s.show_page_num r)).toOption := by
  unfold deliveredCollPage collections_get
  dsimp only []
  cases pageFallback (collPaginator s) (resolvePageArg s.show_page_num r) with
  | error e => rfl
  | ok cp => rfl

theorem deliveredCollDescription_eq {α : Type} (s : CollectionsState α) (r : Request)
    (hpp : 0 < s.num_page_items) :
    deliveredCollDescription s r =
      some (if (collPaginator s).count ≠ 0 then s.description
            else s.zero_items_message) := by
  have hok := pageFallback_ok (collPaginator s) (resolvePageArg s.show_page_num r)
    (collPaginator_allow s) hpp
  obtain ⟨pg, hpg⟩ := hok
  unfold deliveredCollDescription collections_get
  dsimp only []
  rw [hpg]

/-! ## Lemmas about the attribute namespace -/

theorem getattrPy_setattrPy (ns : List (String × AttrVal)) (k' : String) (v : AttrVal)
    (k : String) :
    getattrPy (setattrPy ns k' v) k = if k = k' then some v else getattrPy ns k := by
  induction ns with
  | nil =>
    by_cases h : k = k'
    · simp [setattrPy, getattrPy, h]
    · simp [setattrPy, getattrPy, h, Ne.symm h]
  | cons p rest ih =>
    by_cases hp : p.1 = k'
    · by_cases h : k = k'
      · simp [setattrPy, getattrPy, hp, h]
      · simp only [setattrPy, if_pos hp, getattrPy, List.find?]
        have hk : (k' == k) = false := by
          simp [Ne.symm h]
        rw [hk]
        have hpk : (p.1 == k) = false := by
          simp [hp ▸ Ne.symm h]
        simp [if_neg h, hpk]
    · by_cases hpk : p.1 = k
      · have h : ¬ k = k' := fun he => hp (he ▸ hpk)
        simp [setattrPy, if_neg hp, getattrPy, List.find?, hpk, if_neg h]
      · have hpk' : (p.1 == k) = false := by simp [hpk]
        simp only [setattrPy, if_neg hp, getattrPy, List.find?, hpk']
        exact ih

/-- C8 (amended): the override loop applies every keyword — known or
unknown — by attribute assignment: afterwards each key listed in the
keyword arguments holds the last value given for it, every attribute not
listed keeps its prior value, and (assignment on a plain view instance
never raising) no exception escapes the loop. -/
theorem C8_thm (ns : List (String × AttrVal))
    (kwargs : List (String × AttrVal)) (k : String) :
    getattrPy (applyOverrides ns kwargs) k =
      match lastVal kwargs k with
      | some v => some v
      | none => getattrPy ns k := by
  induction kwargs generalizing ns with
  | nil => rfl
  | cons kv rest ih =>
    show getattrPy (applyOverrides (setattrPy ns kv.1 kv.2) rest) k = _
    rw [ih]
    cases hrest : lastVal rest k with
    | some v => simp [lastVal, hrest]
    | none =>
      show getattrPy (setattrPy ns kv.1 kv.2) k =
        match lastVal (kv :: rest) k with
        | some v => some v
        | none => getattrPy ns k
      have hl : lastVal (kv :: rest) k = if kv.1 = k then some kv.2 else none := by
        simp [lastVal, hrest]
      rw [getattrPy_setattrPy, hl]
      by_cases h : k = kv.1
      · simp [h]
      · simp [h, Ne.symm h]

/-! ## The claims -/

/-- C2 (counterexample): with the spec's example choices
`[(-1, "All time"), (7, "Last week"), (30, "Last month")]` and request
`dtf=1`, the accepted index is `1`, yet `date_filter['default']` becomes
`7` — the delta of the chosen pair — not the accepted index `1`. -/
theorem C2_counterexample :
    getParam ⟨[("dtf", "1")]⟩ "dtf" = some "1" ∧
    pyInt "1" = some 1 ∧
    (dealListDefaults []).dfChoices = [(-1, "All time"), (7, "Last week"), (30, "Last month")] ∧
    (filter_deals_from_params 100 (dealListDefaults []) ⟨[("dtf", "1")]⟩).dfDefault = 7 ∧
    (filter_deals_from_params 100 (dealListDefaults []) ⟨[("dtf", "1")]⟩).dfDefault ≠ 1 := by
  refine ⟨rfl, by decide, rfl, by decide, by decide⟩

/-- C2 (amended): for every request whose `dtf` parameter parses as an
integer `i` with `0 ≤ i <` length of the configured choices,
`filter_deals_from_params` sets `date_filter['default']` to the delta
component `choices[i][0]` of the accepted choice (not to the index `i`),
including when that delta is the `-1` "no restriction" sentinel. -/
theorem C2_thm (today : Int) (s : DealListState) (r : Request) (p : String)
    (i : Int) (c : Int × String)
    (hp : getParam r "dtf" = some p) (hpy : pyInt p = some i) (h0 : 0 ≤ i)
    (hc : s.dfChoices.get? i.toNat = some c) :
    (filter_deals_from_params today s r).dfDefault = c.1 := by
  have hne : p ≠ "" := ne_empty_of_pyInt_some hpy
  have hlen : i.toNat < s.dfChoices.length := by
    by_contra hn
    push_neg at hn
    rw [List.get?_eq_none.mpr hn] at hc
    exact Option.noConfusion hc
  have hr : ¬ (i < 0 ∨ (s.dfChoices.length : Int) ≤ i) := by omega
  unfold filter_deals_from_params
  rw [hp]
  dsimp only []
  rw [if_neg hne, hpy]
  dsimp only []
  rw [if_neg hr]
  dsimp only []
  rw [hc]
  rfl

/-- C2 (witness): evaluation of the amended claim at `dtf=1` over the
example choices: the recorded default is the delta `7`. -/
theorem C2_witness :
    getParam ⟨[("dtf", "1")]⟩ "dtf" = some "1" ∧
    pyInt "1" = some 1 ∧
    (0 : Int) ≤ 1 ∧
    (dealListDefaults dealsFix).dfChoices.get? (1 : Int).toNat = some (7, "Last week") ∧
    (filter_deals_from_params 100 (dealListDefaults dealsFix) ⟨[("dtf", "1")]⟩).dfDefault =
      (7, "Last week").1 :=
  ⟨rfl, by decide, by decide, by decide,
   C2_thm 100 (dealListDefaults dealsFix) ⟨[("dtf", "1")]⟩ "1" 1 (7, "Last week")
     rfl (by decide) (by decide) (by decide)⟩

/-- C3: for every request whose `dtf` parameter is a valid choice index
whose delta `d` is non-negative, `filter_deals_from_params` replaces the
deal collection with exactly the items whose `date_last_modified` is
strictly greater than `today - d` days. -/
theorem C3_thm (today : Int) (s : DealListState) (r : Request) (p : String)
    (i : Int) (c : Int × String)
    (hp : getParam r "dtf" = some p) (hpy : pyInt p = some i) (h0 : 0 ≤ i)
    (hc : s.dfChoices.get? i.toNat = some c) (hd : 0 ≤ c.1) :
    (filter_deals_from_params today s r).deals =
      s.deals.filter (fun d => decide (today - c.1 < d.date_last_modified)) := by
  have hne : p ≠ "" := ne_empty_of_pyInt_some hpy
  have hlen : i.toNat < s.dfChoices.length := by
    by_contra hn
    push_neg at hn
    rw [List.get?_eq_none.mpr hn] at hc
    exact Option.noConfusion hc
  have hr : ¬ (i < 0 ∨ (s.dfChoices.length : Int) ≤ i) := by omega
  have hdelta : ((s.dfChoices.get? i.toNat).getD (0, "")).1 = c.1 := by
    rw [hc]
    rfl
  have hsent : ((s.dfChoices.get? i.toNat).getD (0, "")).1 ≠ -1 := by
    rw [hdelta]
    omega
  unfold filter_deals_from_params
  rw [hp]
  dsimp only []
  rw [if_neg hne, hpy]
  dsimp only []
  rw [if_neg hr]
  dsimp only []
  rw [if_pos hsent]
  dsimp only []
  rw [hdelta]

/-- C3 (witness): `dtf=1` over the example choices filters the twenty
fixture deals (days `0..19`, today `= 100 - 87`) to those with
`date_last_modified > 13 - 7 = 6`. -/
theorem C3_witness :
    getParam ⟨[("dtf", "1")]⟩ "dtf" = some "1" ∧
    pyInt "1" = some 1 ∧
    (0 : Int) ≤ 1 ∧
    sFix.dfChoices.get? (1 : Int).toNat = some (7, "Last week") ∧
    (0 : Int) ≤ (7, "Last week").1 ∧
    (filter_deals_from_params 13 sFix ⟨[("dtf", "1")]⟩).deals =
      sFix.deals.filter (fun d => decide (13 - (7, "Last week").1 < d.date_last_modified)) :=
  ⟨rfl, by decide, by decide, by decide, by decide,
   C3_thm 13 sFix ⟨[("dtf", "1")]⟩ "1" 1 (7, "Last week")
     rfl (by decide) (by decide) (by decide) (by decide)⟩

/-- C4: for every request whose `dtf` parameter is absent, unparseable as
an integer, or an integer outside the index range of the configured
choices, `filter_deals_from_params` leaves the whole view state — deals
and date-filter configuration — unchanged, and raises nothing. -/
theorem C4_thm (today : Int) (s : DealListState) (r : Request)
    (h : getParam r "dtf" = none ∨
         (∃ p, getParam r "dtf" = some p ∧ pyInt p = none) ∨
         (∃ p i, getParam r "dtf" = some p ∧ pyInt p = some i ∧
            (i < 0 ∨ (s.dfChoices.length : Int) ≤ i))) :
    filter_deals_from_params today s r = s := by
  rcases h with hnone | ⟨p, hp, hpy⟩ | ⟨p, i, hp, hpy, hr⟩
  · unfold filter_deals_from_params
    rw [hnone]
  · unfold filter_deals_from_params
    rw [hp]
    dsimp only []
    by_cases hpe : p = ""
    · rw [if_pos hpe]
    · rw [if_neg hpe, hpy]
  · have hne : p ≠ "" := ne_empty_of_pyInt_some hpy
    unfold filter_deals_from_params
    rw [hp]
    dsimp only []
    rw [if_neg hne, hpy]
    dsimp only []
    rw [if_pos hr]

/-- C4 (witness): `dtf=xyz` fails `int()` and leaves the fixture state
untouched. -/
theorem C4_witness :
    (getParam ⟨[("dtf", "xyz")]⟩ "dtf" = none ∨
      (∃ p, getParam ⟨[("dtf", "xyz")]⟩ "dtf" = some p ∧ pyInt p = none) ∨
      (∃ p i, getParam ⟨[("dtf", "xyz")]⟩ "dtf" = some p ∧ pyInt p = some i ∧
         (i < 0 ∨ (sFix.dfChoices.length : Int) ≤ i))) ∧
    filter_deals_from_params 100 sFix ⟨[("dtf", "xyz")]⟩ = sFix :=
  ⟨Or.inr (Or.inl ⟨"xyz", rfl, by decide⟩),
   C4_thm 100 sFix ⟨[("dtf", "xyz")]⟩ (Or.inr (Or.inl ⟨"xyz", rfl, by decide⟩))⟩

/-- C5: for every request whose `pg` parameter is present, non-empty and
unparseable as an integer, both `DealListBaseView.render_deal_list` and
`CollectionsBaseView.get` deliver page 1 of the paginated collection and
raise no error. -/
theorem C5_thm {α : Type} (today : Int) (s : DealListState)
    (cs : CollectionsState α) (r : Request) (p : String)
    (hp : getParam r "pg" = some p) (hne : p ≠ "") (hpy : pyInt p = none)
    (hpp : 0 < s.num_page_items) (hcp : 0 < cs.num_page_items) :
    deliveredDealPage today s r =
      some ⟨(dealPaginator today s r).pageSlice 1, 1⟩ ∧
    deliveredCollPage cs r =
      some ⟨(collPaginator cs).pageSlice 1, 1⟩ := by
  have hsre : resolvePageArg s.show_page_num r = .str p := by
    unfold resolvePageArg
    rw [hp]
    dsimp only []
    rw [if_neg hne]
  have hcre : resolvePageArg cs.show_page_num r = .str p := by
    unfold resolvePageArg
    rw [hp]
    dsimp only []
    rw [if_neg hne]
  constructor
  · rw [deliveredDealPage_eq, hsre,
      pageFallback_notAnInteger (dealPaginator today s r) (v := .str p) hpy
        (dealPaginator_allow today s r)
        (by rw [dealPaginator_per_page]; exact hpp)]
    rfl
  · rw [deliveredCollPage_eq, hcre,
      pageFallback_notAnInteger (collPaginator cs) (v := .str p) hpy
        (collPaginator_allow cs) hcp]
    rfl

/-- C5 (witness): `pg=abc` delivers page 1 of both fixture views. -/
theorem C5_witness :
    getParam ⟨[("pg", "abc")]⟩ "pg" = some "abc" ∧
    "abc" ≠ "" ∧
    pyInt "abc" = none ∧
    0 < sFix.num_page_items ∧
    0 < csFix.num_page_items ∧
    (deliveredDealPage 0 sFix ⟨[("pg", "abc")]⟩ =
       some ⟨(dealPaginator 0 sFix ⟨[("pg", "abc")]⟩).pageSlice 1, 1⟩ ∧
     deliveredCollPage csFix ⟨[("pg", "abc")]⟩ =
       some ⟨(collPaginator csFix).pageSlice 1, 1⟩) :=
  ⟨rfl, by decide, by decide, by decide, by decide,
   C5_thm 0 sFix csFix ⟨[("pg", "abc")]⟩ "abc" rfl (by decide) (by decide)
     (by decide) (by decide)⟩

/-- C6: for every request whose `pg` parameter parses as an integer
outside the valid page range of the respective paginated collection, both
`DealListBaseView.render_deal_list` and `CollectionsBaseView.get` deliver
the last page of results and raise no error. -/
theorem C6_thm {α : Type} (today : Int) (s : DealListState)
    (cs : CollectionsState α) (r : Request) (p : String) (n : Int)
    (hp : getParam r "pg" = some p) (hpy : pyInt p = some n)
    (hsout : n < 1 ∨ ((dealPaginator today s r).num_pages : Int) < n)
    (hcout : n < 1 ∨ ((collPaginator cs).num_pages : Int) < n)
    (hpp : 0 < s.num_page_items) (hcp : 0 < cs.num_page_items) :
    deliveredDealPage today s r =
      some ⟨(dealPaginator today s r).pageSlice (dealPaginator today s r).num_pages,
            ((dealPaginator today s r).num_pages : Int)⟩ ∧
    deliveredCollPage cs r =
      some ⟨(collPaginator cs).pageSlice (collPaginator cs).num_pages,
            ((collPaginator cs).num_pages : Int)⟩ := by
  have hne : p ≠ "" := ne_empty_of_pyInt_some hpy
  have hsre : resolvePageArg s.show_page_num r = .str p := by
    unfold resolvePageArg
    rw [hp]
    dsimp only []
    rw [if_neg hne]
  have hcre : resolvePageArg cs.show_page_num r = .str p := by
    unfold resolvePageArg
    rw [hp]
    dsimp only []
    rw [if_neg hne]
  constructor
  · rw [deliveredDealPage_eq, hsre,
      pageFallback_outOfRange (dealPaginator today s r) (v := .str p) hpy hsout
        (dealPaginator_allow today s r)
        (by rw [dealPaginator_per_page]; exact hpp)]
    rfl
  · rw [deliveredCollPage_eq, hcre,
      pageFallback_outOfRange (collPaginator cs) (v := .str p) hpy hcout
        (collPaginator_allow cs) hcp]
    rfl

/-- C6 (witness): `pg=7` is beyond the two pages of both fixture views and
delivers the last page (page 2) of each. -/
theorem C6_witness :
    getParam ⟨[("pg", "7")]⟩ "pg" = some "7" ∧
    pyInt "7" = some 7 ∧
    ((7 : Int) < 1 ∨ ((dealPaginator 0 sFix ⟨[("pg", "7")]⟩).num_pages : Int) < 7) ∧
    ((7 : Int) < 1 ∨ ((collPaginator csFix).num_pages : Int) < 7) ∧
    0 < sFix.num_page_items ∧
    0 < csFix.num_page_items ∧
    (deliveredDealPage 0 sFix ⟨[("pg", "7")]⟩ =
       some ⟨(dealPaginator 0 sFix ⟨[("pg", "7")]⟩).pageSlice
               (dealPaginator 0 sFix ⟨[("pg", "7")]⟩).num_pages,
             ((dealPaginator 0 sFix ⟨[("pg", "7")]⟩).num_pages : Int)⟩ ∧
     deliveredCollPage csFix ⟨[("pg", "7")]⟩ =
       some ⟨(collPaginator csFix).pageSlice (collPaginator csFix).num_pages,
             ((collPaginator csFix).num_pages : Int)⟩) :=
  ⟨rfl, by decide, by decide, by decide, by decide, by decide,
   C6_thm 0 sFix csFix ⟨[("pg", "7")]⟩ "7" 7 rfl (by decide) (by decide)
     (by decide) (by decide) (by decide)⟩

/-- C7: for every request, both views place in the rendering context the
configured zero-items message exactly when the paginated collection's
total item count is zero, and the configured description otherwise — with
no exception either way (the delivered description is always `some`). -/
theorem C7_thm {α : Type} (today : Int) (s : DealListState)
    (cs : CollectionsState α) (r : Request)
    (hpp : 0 < s.num_page_items) (hcp : 0 < cs.num_page_items) :
    deliveredDealDescription today s r =
      some (if (dealPaginator today s r).count = 0 then s.zero_items_message
            else s.description) ∧
    deliveredCollDescription cs r =
      some (if (collPaginator cs).count = 0 then cs.zero_items_message
            else cs.description) := by
  constructor
  · rw [deliveredDealDescription_eq today s r hpp]
    by_cases h : (dealPaginator today s r).count = 0 <;> simp [h]
  · rw [deliveredCollDescription_eq cs r hcp]
    by_cases h : (collPaginator cs).count = 0 <;> simp [h]

/-- C7 (witness): over empty fixture collections, an arbitrary page
request (`pg=99`) yields the zero-items message of each view. -/
theorem C7_witness :
    0 < sEmptyFix.num_page_items ∧
    0 < csEmptyFix.num_page_items ∧
    (deliveredDealDescription 0 sEmptyFix ⟨[("pg", "99")]⟩ =
       some (if (dealPaginator 0 sEmptyFix ⟨[("pg", "99")]⟩).count = 0
             then sEmptyFix.zero_items_message else sEmptyFix.description) ∧
     deliveredCollDescription csEmptyFix ⟨[("pg", "99")]⟩ =
       some (if (collPaginator csEmptyFix).count = 0
             then csEmptyFix.zero_items_message else csEmptyFix.description)) :=
  ⟨by decide, by decide,
   C7_thm 0 sEmptyFix csEmptyFix ⟨[("pg", "99")]⟩ (by decide) (by decide)⟩

/-- C9: for every request whose `pg` parameter is present but empty, both
views resolve the page argument to the configured default page number
`show_page_num` (not the page-1 non-integer fallback), and — when that
default is a valid page — deliver exactly that page. -/
theorem C9_thm {α : Type} (today : Int) (s : DealListState)
    (cs : CollectionsState α) (r : Request)
    (hp : getParam r "pg" = some "")
    (hs1 : 1 ≤ s.show_page_num)
    (hs2 : s.show_page_num ≤ ((dealPaginator today s r).num_pages : Int))
    (hc1 : 1 ≤ cs.show_page_num)
    (hc2 : cs.show_page_num ≤ ((collPaginator cs).num_pages : Int)) :
    resolvePageArg s.show_page_num r = .int s.show_page_num ∧
    deliveredDealPage today s r =
      some ⟨(dealPaginator today s r).pageSlice s.show_page_num.toNat,
            s.show_page_num⟩ ∧
    resolvePageArg cs.show_page_num r = .int cs.show_page_num ∧
    deliveredCollPage cs r =
      some ⟨(collPaginator cs).pageSlice cs.show_page_num.toNat,
            cs.show_page_num⟩ := by
  have hsre : resolvePageArg s.show_page_num r = .int s.show_page_num := by
    unfold resolvePageArg
    rw [hp]
    dsimp only []
    rw [if_pos rfl]
  have hcre : resolvePageArg cs.show_page_num r = .int cs.show_page_num := by
    unfold resolvePageArg
    rw [hp]
    dsimp only []
    rw [if_pos rfl]
  refine ⟨hsre, ?_, hcre, ?_⟩
  · rw [deliveredDealPage_eq, hsre,
      pageFallback_inRange (dealPaginator today s r)
        (v := .int s.show_page_num) rfl hs1 hs2]
    rfl
  · rw [deliveredCollPage_eq, hcre,
      pageFallback_inRange (collPaginator cs)
        (v := .int cs.show_page_num) rfl hc1 hc2]
    rfl

/-- C9 (witness): with defaults configured to page 2 and an empty `pg`
parameter, both fixture views deliver page 2, not page 1. -/
theorem C9_witness :
    getParam ⟨[("pg", "")]⟩ "pg" = some "" ∧
    (1 : Int) ≤ sPg2Fix.show_page_num ∧
    sPg2Fix.show_page_num ≤ ((dealPaginator 0 sPg2Fix ⟨[("pg", "")]⟩).num_pages : Int) ∧
    (1 : Int) ≤ csPg2Fix.show_page_num ∧
    csPg2Fix.show_page_num ≤ ((collPaginator csPg2Fix).num_pages : Int) ∧
    (resolvePageArg sPg2Fix.show_page_num ⟨[("pg", "")]⟩ = .int sPg2Fix.show_page_num ∧
     deliveredDealPage 0 sPg2Fix ⟨[("pg", "")]⟩ =
       some ⟨(dealPaginator 0 sPg2Fix ⟨[("pg", "")]⟩).pageSlice
               sPg2Fix.show_page_num.toNat, sPg2Fix.show_page_num⟩ ∧
     resolvePageArg csPg2Fix.show_page_num ⟨[("pg", "")]⟩ = .int csPg2Fix.show_page_num ∧
     deliveredCollPage csPg2Fix ⟨[("pg", "")]⟩ =
       some ⟨(collPaginator csPg2Fix).pageSlice csPg2Fix.show_page_num.toNat,
             csPg2Fix.show_page_num⟩) :=
  ⟨rfl, by decide, by decide, by decide, by decide,
   C9_thm 0 sPg2Fix csPg2Fix ⟨[("pg", "")]⟩ rfl (by decide) (by decide)
     (by decide) (by decide)⟩

/-- C8 (counterexample): passing the unknown override key `bogus_key` is
not ignored: `setattr` creates the attribute on the view, so the view's
state beyond the listed attributes changes. -/
theorem C8_counterexample :
    getattrPy (dealListClassNS []) "bogus_key" = none ∧
    applyOverrides (dealListClassNS []) [("bogus_key", AttrVal.vInt 7)] ≠
      dealListClassNS [] ∧
    getattrPy (applyOverrides (dealListClassNS []) [("bogus_key", AttrVal.vInt 7)])
      "bogus_key" = some (AttrVal.vInt 7) := by
  refine ⟨by decide, by decide, by decide⟩

/-- C1: for every slug matched by no instance of the configured model,
`DealCollectionItemsListBaseView.get` does not surface the configured
`Http404(not_found)` signal: the module never imports `Http404`, so the
`raise` statement itself fails with `NameError` — an uncaught server
error. -/
theorem C1_thm (today : Int) (insts : List ModelInst) (allDeals : List Dealrec)
    (kw : List (String × Int)) (s : DCState) (r : Request) (slug : String)
    (h : insts.filter (fun m => m.slug == slug) = ([] : List ModelInst)) :
    dcil_get today insts allDeals kw s r slug =
      .error (.nameError "Http404") ∧
    "Http404" ∉ moduleNames := by
  constructor
  · unfold dcil_get get_queryset objects_get
    rw [h]
    dsimp only []
    unfold raiseHttp404stmt
    rw [if_neg (by decide)]
  · decide

/-- C1 (witness): a request for slug `missing` against an empty instance
table makes `get` fail with `NameError`, not `Http404`. -/
theorem C1_witness :
    List.filter (fun m => m.slug == "missing") ([] : List ModelInst) =
      ([] : List ModelInst) ∧
    (dcil_get 0 [] dealsFix [] dcFix ⟨[]⟩ "missing" =
       .error (.nameError "Http404") ∧
     "Http404" ∉ moduleNames) :=
  ⟨rfl, C1_thm 0 [] dealsFix [] dcFix ⟨[]⟩ "missing" rfl⟩

/-- C10: whenever the slug lookup succeeds,
`DealCollectionItemsListBaseView.get` runs the pipeline but falls off the
end of the method: the rendered response built by `do_render` is replaced
by `None` in `get`'s own result, so it is never returned to the caller. -/
theorem C10_thm (today : Int) (insts : List ModelInst) (allDeals : List Dealrec)
    (kw : List (String × Int)) (s : DCState) (r : Request) (slug : String)
    (s1 : DCState) (m : ModelInst)
    (h : get_queryset insts s slug = .ok (s1, m)) :
    dcil_get today insts allDeals kw s r slug =
      (do_render today (dcilOverridden allDeals kw s1) r).map
        (fun pr => (pr.1, (none : Option RenderedPage))) := by
  unfold dcil_get
  rw [h]
  dsimp only []
  unfold dcilAfterLookup
  cases hdr : do_render today (dcilOverridden allDeals kw s1) r with
  | error e => simp [Except.map]
  | ok pr => simp [Except.map]

/-- C10 (witness): with one instance of slug `electronics`, `get` returns
`None` while `do_render`'s response is discarded. -/
theorem C10_witness :
    get_queryset [mFix] dcFix "electronics" =
      .ok ({ dcFix with queryset := some mFix }, mFix) ∧
    dcil_get 0 [mFix] dealsFix [] dcFix ⟨[]⟩ "electronics" =
      (do_render 0 (dcilOverridden dealsFix [] { dcFix with queryset := some mFix }) ⟨[]⟩).map
        (fun pr => (pr.1, (none : Option RenderedPage))) :=
  ⟨by decide,
   C10_thm 0 [mFix] dealsFix [] dcFix ⟨[]⟩ "electronics"
     { dcFix with queryset := some mFix } mFix (by decide)⟩

end Troupon
